import Mathlib

/-
Verification of the geometry builder in define_geometry.py (TJ-II HIBP-1
geometry definition).

The module is a single straight-line function that fills a Geometry record:
scalar plasma parameters, angle triples per beamline element, 3D coordinates
built by chaining translate-along-direction steps, two tabulated contours
loaded from files, and a final (currently zero) global shift.

Embedding choices:
  * Coordinates and angles are rational triples; every numeric literal of the
    Python source is exact in decimal, hence exact in the rationals.
  * The Geometry class and its add_coords method live in the external hibplib
    module, which is not part of the sources here; they are modelled from the
    spec (see the doc comments of Geometry and Geometry.add_coords below).
    The rotation convention turning an angle triple into a direction is left
    abstract as a parameter dir, since the spec deliberately does not fix it;
    the spec only guarantees that the direction arises by rotating a reference
    axis, i.e. that it is a unit vector, which appears as the hypothesis
    sqnorm3 (dir a) = 1 where it is needed.
  * Python dictionaries are association lists with Python insertion-order
    update semantics.
  * File reads (np.loadtxt) are modelled by an abstract file system mapping a
    path to either nothing (missing file), malformed contents, or a numeric
    table; failures abort the builder through the Except monad, which models
    an uncaught Python exception propagating to the caller.
  * Dictionary lookups that would raise KeyError in Python are likewise
    modelled in the Except monad, so that the order-of-definition invariants
    of the builder are observable as absence of key errors.
-/

namespace HIBP

/-- Triple of rationals used both for 3D coordinates in meters. -/
abbrev Vec3 : Type := ℚ × ℚ × ℚ

/-- Angle triple (alpha, beta, gamma), in degrees. -/
abbrev Angles : Type := ℚ × ℚ × ℚ

/-- Componentwise sum of two vectors. -/
def vadd3 (v w : Vec3) : Vec3 := (v.1 + w.1, v.2.1 + w.2.1, v.2.2 + w.2.2)

/-- Scalar multiple of a vector. -/
def smul3 (d : ℚ) (v : Vec3) : Vec3 := (d * v.1, d * v.2.1, d * v.2.2)

/-- Squared Euclidean norm of a vector. -/
def sqnorm3 (v : Vec3) : ℚ := v.1 * v.1 + v.2.1 * v.2.1 + v.2.2 * v.2.2

/-- Squared Euclidean distance between two points. -/
def sqdist3 (v w : Vec3) : ℚ :=
  sqnorm3 (v.1 - w.1, v.2.1 - w.2.1, v.2.2 - w.2.2)

/-- The Euclidean distance between v and w equals the rational d, stated over
the reals. -/
def distEq (v w : Vec3) (d : ℚ) : Prop :=
  Real.sqrt ((sqdist3 v w : ℚ) : ℝ) = (d : ℝ)

/-- Python dictionary with string keys, as an insertion-ordered association
list. -/
abbrev Dict (α : Type) : Type := List (String × α)

/-- Python dictionary assignment d[k] = v: overwrite in place when the key is
present (keeping its position), append at the end otherwise. -/
def dictSet {α : Type} (d : Dict α) (k : String) (v : α) : Dict α :=
  match d with
  | [] => [(k, v)]
  | p :: rest => if p.1 = k then (k, v) :: rest else p :: dictSet rest k v

/-- Python dict.update: fold dictionary assignment over the entries of the
second dictionary in order. -/
def dictUpdate {α : Type} (d e : Dict α) : Dict α :=
  e.foldl (fun acc p => dictSet acc p.1 p.2) d

/-- Contents of a file as seen by the loader: a table of numeric rows, or
malformed contents that make parsing fail. -/
inductive FileData : Type where
  | table : List (List ℚ) → FileData
  | malformed : FileData

/-- Abstract file system: maps a path to its contents, none when the file is
missing. -/
abbrev FS : Type := String → Option FileData

/-- Failures of the builder: a missing file, an unparsable file, or a failed
dictionary lookup (a Python KeyError). -/
inductive GeomError : Type where
  | fileNotFound : String → GeomError
  | badFile : String → GeomError
  | keyError : String → GeomError

/-- True for the two file-related failures, false for a key error. -/
def GeomError.isFileError : GeomError → Bool
  | .fileNotFound _ => true
  | .badFile _ => true
  | .keyError _ => false

/-- Modelled from the spec: np.loadtxt is external library code. Reading a
missing file fails with a file-not-found condition; malformed numeric rows
fail with a read/parse error; otherwise the tabulated rows are returned.
Either failure propagates to the caller, as an uncaught exception does. -/
def loadtxt (fs : FS) (path : String) : Except GeomError (List (List ℚ)) :=
  match fs path with
  | none => .error (.fileNotFound path)
  | some .malformed => .error (.badFile path)
  | some (.table rows) => .ok rows

/-- Modelled from the spec: the Geometry class of the external hibplib module.
The spec describes it as an aggregate holding scalar plasma parameters, a
mapping from element name to angle triple, a mapping from element name to 3D
coordinate, chamber entrance/exit/contour point lists, and the camera and
separatrix contour tables. -/
structure Geometry : Type where
  R : ℚ
  r_plasma : ℚ
  elon : ℚ
  angles_dict : Dict Angles
  r_dict : Dict Vec3
  chamb_ent : List (ℚ × ℚ)
  chamb_ext : List (ℚ × ℚ)
  chamb : List (ℚ × ℚ)
  camera : List (List ℚ)
  sep : List (List ℚ)

/-- Freshly constructed Geometry, with empty dictionaries and tables. -/
def Geometry.empty : Geometry :=
  { R := 0, r_plasma := 0, elon := 0, angles_dict := [], r_dict := [],
    chamb_ent := [], chamb_ext := [], chamb := [], camera := [], sep := [] }

/-- Python dictionary read d[k]: the stored value, or a KeyError when the key
is absent. -/
def dictGet {α : Type} (d : Dict α) (k : String) : Except GeomError α :=
  match d.lookup k with
  | some v => .ok v
  | none => .error (.keyError k)

/-- Modelled from the spec: Geometry.add_coords lives in the external hibplib
module. Per the spec, it stores under the child name the parent point
translated by the scalar distance d along the direction determined by the
angle triple; the exact rotation convention is not restated by the spec, so
the map from angle triple to direction vector is the abstract parameter dir.
Looking up a missing parent is a KeyError. -/
def Geometry.add_coords (dir : Angles → Vec3) (g : Geometry)
    (name parent : String) (d : ℚ) (a : Angles) : Except GeomError Geometry := do
  let p ← dictGet g.r_dict parent
  pure { g with r_dict := dictSet g.r_dict name (vadd3 p (smul3 d (dir a))) }

/-- Body of the final shift loop of define_geometry: add the (currently zero)
calibration offset to each component of a stored coordinate. -/
def shiftXYZ (v : Vec3) : Vec3 := (v.1 + 0.0, v.2.1 + 0.0, v.2.2 + 0.0)

/-- Final pass of define_geometry: apply the componentwise shift to every
entry of the coordinate dictionary, leaving every other field alone. -/
def applyShift (g : Geometry) : Geometry :=
  { g with r_dict := g.r_dict.map (fun p => (p.1, shiftXYZ p.2)) }

/-- Path of the separatrix data file for a configuration label, exactly the
string expression of the source. -/
def sepFile (config : String) : String := "configs//" ++ config ++ ".txt"

/-- Shallow embedding of define_geometry from define_geometry.py, line by
line. The print statements of the source are modelled by the dictionary
lookups they perform (their console output has no effect on the result). -/
def define_geometry (dir : Angles → Vec3) (fs : FS) (config : String) :
    Except GeomError Geometry := do
  let geom := Geometry.empty
  -- plasma parameters
  let geom := { geom with R := 1.5, r_plasma := 0.4, elon := 1.0 }
  -- PRIMARY beamline geometry: alpha and beta angles [deg]
  let dalpha : ℚ := -1.2
  let dbeta : ℚ := 11.0
  let alpha_prim : ℚ := 75.2 + dalpha
  let beta_prim : ℚ := -22.0 + dbeta
  let gamma_prim : ℚ := 0.0
  let prim_angles : Dict Angles :=
    [("r0", (alpha_prim, beta_prim, gamma_prim)),
     ("A1", (alpha_prim, beta_prim, gamma_prim)),
     ("B1", (alpha_prim, beta_prim, gamma_prim)),
     ("B2", (alpha_prim, beta_prim, gamma_prim)),
     ("A2", (alpha_prim, beta_prim, gamma_prim))]
  let geom := { geom with angles_dict := dictUpdate geom.angles_dict prim_angles }
  -- coordinates of the injection port [m]
  let xport_in : ℚ := 1.34817
  let yport_in : ℚ := 0.8658
  let zport_in : ℚ := 0.0
  let geom := { geom with r_dict := dictSet geom.r_dict "port_in" (xport_in, yport_in, zport_in) }
  -- distances along the primary beamline [m]
  let dist_A2 : ℚ := 0.2305
  let dist_B2 : ℚ := 0.19
  let dist_B1 : ℚ := 0.39
  let dist_A1 : ℚ := 0.18
  let dist_r0 : ℚ := 0.2
  -- coordinates of the primary-beamline elements
  let aA2 ← dictGet geom.angles_dict "A2"
  let geom ← geom.add_coords dir "A2" "port_in" dist_A2 aA2
  let aB2 ← dictGet geom.angles_dict "B2"
  let geom ← geom.add_coords dir "B2" "A2" dist_B2 aB2
  let aB1 ← dictGet geom.angles_dict "B1"
  let geom ← geom.add_coords dir "B1" "B2" dist_B1 aB1
  let aA1 ← dictGet geom.angles_dict "A1"
  let geom ← geom.add_coords dir "A1" "B1" dist_A1 aA1
  let ar0 ← dictGet geom.angles_dict "r0"
  let geom ← geom.add_coords dir "r0" "A1" dist_r0 ar0
  -- coordinates of the output port [m]
  let xport_out : ℚ := 2.3786
  let yport_out : ℚ := -0.38
  let zport_out : ℚ := -0.03677 + 0.02
  let geom := { geom with r_dict := dictSet geom.r_dict "port_out" (xport_out, yport_out, zport_out) }
  -- SECONDARY beamline geometry: alpha and beta angles [deg]
  let alpha_sec : ℚ := 0.0
  let beta_sec : ℚ := 13.15
  let gamma_sec : ℚ := 0.0
  let sec_angles : Dict Angles :=
    [("aim", (alpha_sec, beta_sec, gamma_sec)),
     ("A3", (alpha_sec, beta_sec, gamma_sec)),
     ("B3", (alpha_sec, beta_sec, gamma_sec)),
     ("an", (alpha_sec, beta_sec, gamma_sec))]
  let geom := { geom with angles_dict := dictUpdate geom.angles_dict sec_angles }
  -- distances along the secondary beamline [m]
  let dist_aim : ℚ := 0.166
  let dist_B3 : ℚ := 0.222
  let dist_A3 : ℚ := 0.2
  let dist_s : ℚ := 0.63
  -- coordinates of the secondary-beamline elements; the source passes the
  -- angle triple stored under A3 to every one of these calls
  let a1 ← dictGet geom.angles_dict "A3"
  let geom ← geom.add_coords dir "B3" "port_out" dist_B3 a1
  let a2 ← dictGet geom.angles_dict "A3"
  let geom ← geom.add_coords dir "aim" "B3" (dist_A3 - 0.075) a2
  let a3 ← dictGet geom.angles_dict "A3"
  let geom ← geom.add_coords dir "A3" "B3" dist_A3 a3
  let a4 ← dictGet geom.angles_dict "A3"
  let geom ← geom.add_coords dir "slit" "B3" dist_s a4
  -- the analyzer entry is assigned directly from the slit entry
  let slitv ← dictGet geom.r_dict "slit"
  let geom := { geom with r_dict := dictSet geom.r_dict "an" slitv }
  -- print info: the source prints five dictionary entries; only the lookups
  -- are modelled
  let _ ← dictGet geom.angles_dict "r0"
  let _ ← dictGet geom.angles_dict "A3"
  let _ ← dictGet geom.r_dict "r0"
  let _ ← dictGet geom.r_dict "aim"
  let _ ← dictGet geom.r_dict "slit"
  -- TJ-II chamber entrance and exit coordinates
  let geom := { geom with
    chamb_ent := [(0.8, 0.5805), (1.1, 0.5805), (1.43, 0.5805), (1.8, 0.5805)],
    chamb_ext := [(1.89, -0.28), (1.89, 0.0), (1.89, -0.66), (1.89, -0.9),
                  (1.58, -0.52), (1.58, -0.9)],
    chamb := [(1.415, -0.07136), (1.4007, -0.04931),
              (1.4007, -0.04931), (1.3919, -0.02453),
              (1.3919, -0.02453), (1.389, 0.00162),
              (1.389, 0.00162), (1.3925, 0.0277),
              (1.3925, 0.0277), (1.4021, 0.05218),
              (1.4021, 0.05218), (1.416, 0.07456),
              (1.416, 0.07456), (1.4302, 0.09681),
              (1.4302, 0.09681), (1.4443, 0.11909)] }
  -- camera contour
  let camera ← loadtxt fs "TJII_camera.dat"
  let geom := { geom with camera := camera }
  -- separatrix contour
  let sep ← loadtxt fs (sepFile config)
  let geom := { geom with sep := sep }
  -- final (currently zero) shift of every stored coordinate
  pure (applyShift geom)

/-- Angle triple shared by every primary-beamline element: alpha 75.2 - 1.2,
beta -22 + 11, gamma 0 degrees, written as the source computes them. -/
def prim_ang : Angles := (75.2 + -1.2, -22.0 + 11.0, 0.0)

/-- Angle triple shared by every secondary-beamline element. -/
def sec_ang : Angles := (0.0, 13.15, 0.0)

/-- Injection port coordinate. -/
def p_port_in : Vec3 := (1.34817, 0.8658, 0.0)

/-- Alpha2 plate center: injection port plus 0.2305 m along the primary
direction. -/
def p_A2 (dir : Angles → Vec3) : Vec3 := vadd3 p_port_in (smul3 0.2305 (dir prim_ang))

/-- Beta2 plate center. -/
def p_B2 (dir : Angles → Vec3) : Vec3 := vadd3 (p_A2 dir) (smul3 0.19 (dir prim_ang))

/-- Beta1 plate center. -/
def p_B1 (dir : Angles → Vec3) : Vec3 := vadd3 (p_B2 dir) (smul3 0.39 (dir prim_ang))

/-- Alpha1 plate center. -/
def p_A1 (dir : Angles → Vec3) : Vec3 := vadd3 (p_B1 dir) (smul3 0.18 (dir prim_ang))

/-- Initial point of the trajectory. -/
def p_r0 (dir : Angles → Vec3) : Vec3 := vadd3 (p_A1 dir) (smul3 0.2 (dir prim_ang))

/-- Output port coordinate; its z component is written -0.03677 + 0.02 in the
source. -/
def p_port_out : Vec3 := (2.3786, -0.38, -0.03677 + 0.02)

/-- Beta3 plate center: output port plus 0.222 m along the secondary
direction. -/
def p_B3 (dir : Angles → Vec3) : Vec3 := vadd3 p_port_out (smul3 0.222 (dir sec_ang))

/-- Aim point: Beta3 plus 0.2 - 0.075 m along the secondary direction. -/
def p_aim (dir : Angles → Vec3) : Vec3 := vadd3 (p_B3 dir) (smul3 (0.2 - 0.075) (dir sec_ang))

/-- Alpha3 plate center: Beta3 plus 0.2 m along the secondary direction. -/
def p_A3 (dir : Angles → Vec3) : Vec3 := vadd3 (p_B3 dir) (smul3 0.2 (dir sec_ang))

/-- Analyzer entrance slit: Beta3 plus 0.63 m along the secondary
direction. -/
def p_slit (dir : Angles → Vec3) : Vec3 := vadd3 (p_B3 dir) (smul3 0.63 (dir sec_ang))

/-- The angle dictionary the builder produces, in insertion order. -/
def anglesSpec : Dict Angles :=
  [("r0", prim_ang), ("A1", prim_ang), ("B1", prim_ang), ("B2", prim_ang),
   ("A2", prim_ang),
   ("aim", sec_ang), ("A3", sec_ang), ("B3", sec_ang), ("an", sec_ang)]

/-- The coordinate dictionary the builder produces, before the final shift
pass, in insertion order. -/
def rdictSpec (dir : Angles → Vec3) : Dict Vec3 :=
  [("port_in", p_port_in), ("A2", p_A2 dir), ("B2", p_B2 dir),
   ("B1", p_B1 dir), ("A1", p_A1 dir), ("r0", p_r0 dir),
   ("port_out", p_port_out), ("B3", p_B3 dir), ("aim", p_aim dir),
   ("A3", p_A3 dir), ("slit", p_slit dir), ("an", p_slit dir)]

/-- The full Geometry record the builder produces when both file reads
succeed with tables cam and sep. -/
def geomSpec (dir : Angles → Vec3) (cam sep : List (List ℚ)) : Geometry :=
  { R := 1.5, r_plasma := 0.4, elon := 1.0,
    angles_dict := anglesSpec,
    r_dict := (rdictSpec dir).map (fun p => (p.1, shiftXYZ p.2)),
    chamb_ent := [(0.8, 0.5805), (1.1, 0.5805), (1.43, 0.5805), (1.8, 0.5805)],
    chamb_ext := [(1.89, -0.28), (1.89, 0.0), (1.89, -0.66), (1.89, -0.9),
                  (1.58, -0.52), (1.58, -0.9)],
    chamb := [(1.415, -0.07136), (1.4007, -0.04931),
              (1.4007, -0.04931), (1.3919, -0.02453),
              (1.3919, -0.02453), (1.389, 0.00162),
              (1.389, 0.00162), (1.3925, 0.0277),
              (1.3925, 0.0277), (1.4021, 0.05218),
              (1.4021, 0.05218), (1.416, 0.07456),
              (1.416, 0.07456), (1.4302, 0.09681),
              (1.4302, 0.09681), (1.4443, 0.11909)],
    camera := cam, sep := sep }

set_option maxHeartbeats 8000000 in
/-- The builder factors through the two file reads: every dictionary lookup
of the straight-line portion succeeds, and the result is geomSpec applied to
the two loaded tables. -/
lemma define_geometry_eq (dir : Angles → Vec3) (fs : FS) (config : String) :
    define_geometry dir fs config = (do
      let cam ← loadtxt fs "TJII_camera.dat"
      let sep ← loadtxt fs (sepFile config)
      pure (geomSpec dir cam sep)) := rfl

/-- Adding the zero calibration offset to each component changes nothing. -/
lemma shiftXYZ_id (v : Vec3) : shiftXYZ v = v := by
  obtain ⟨x, y, z⟩ := v
  show (x + 0.0, y + 0.0, z + 0.0) = (x, y, z)
  norm_num

/-- The final shift pass leaves the whole Geometry record unchanged. -/
lemma applyShift_id (g : Geometry) : applyShift g = g := by
  cases g
  simp [applyShift, shiftXYZ_id]

/-- Coordinate dictionary of a successfully built geometry. -/
lemma geomSpec_r_dict (dir : Angles → Vec3) (cam sep : List (List ℚ)) :
    (geomSpec dir cam sep).r_dict = rdictSpec dir := by
  show (rdictSpec dir).map (fun p => (p.1, shiftXYZ p.2)) = rdictSpec dir
  simp [shiftXYZ_id]

/-- When both data files exist and parse, the builder succeeds with the fully
populated record. -/
lemma dg_ok (dir : Angles → Vec3) (fs : FS) (config : String)
    (cam sep : List (List ℚ))
    (h1 : fs "TJII_camera.dat" = some (.table cam))
    (h2 : fs (sepFile config) = some (.table sep)) :
    define_geometry dir fs config = .ok (geomSpec dir cam sep) := by
  rw [define_geometry_eq]
  unfold loadtxt
  rw [h1, h2]
  rfl

/-- Missing camera file: the builder fails with a file-not-found error. -/
lemma dg_err_cam_none (dir : Angles → Vec3) (fs : FS) (config : String)
    (h1 : fs "TJII_camera.dat" = none) :
    define_geometry dir fs config = .error (.fileNotFound "TJII_camera.dat") := by
  rw [define_geometry_eq]
  unfold loadtxt
  rw [h1]
  rfl

/-- Malformed camera file: the builder fails with a parse error. -/
lemma dg_err_cam_bad (dir : Angles → Vec3) (fs : FS) (config : String)
    (h1 : fs "TJII_camera.dat" = some .malformed) :
    define_geometry dir fs config = .error (.badFile "TJII_camera.dat") := by
  rw [define_geometry_eq]
  unfold loadtxt
  rw [h1]
  rfl

/-- Missing separatrix file (camera file fine): file-not-found on the
separatrix path. -/
lemma dg_err_sep_none (dir : Angles → Vec3) (fs : FS) (config : String)
    (cam : List (List ℚ))
    (h1 : fs "TJII_camera.dat" = some (.table cam))
    (h2 : fs (sepFile config) = none) :
    define_geometry dir fs config = .error (.fileNotFound (sepFile config)) := by
  rw [define_geometry_eq]
  unfold loadtxt
  rw [h1, h2]
  rfl

/-- Malformed separatrix file (camera file fine): parse error on the
separatrix path. -/
lemma dg_err_sep_bad (dir : Angles → Vec3) (fs : FS) (config : String)
    (cam : List (List ℚ))
    (h1 : fs "TJII_camera.dat" = some (.table cam))
    (h2 : fs (sepFile config) = some .malformed) :
    define_geometry dir fs config = .error (.badFile (sepFile config)) := by
  rw [define_geometry_eq]
  unfold loadtxt
  rw [h1, h2]
  rfl

/-- Every successful build equals geomSpec at the two loaded tables. -/
lemma dg_of_ok (dir : Angles → Vec3) (fs : FS) (config : String) (g : Geometry)
    (hg : define_geometry dir fs config = .ok g) :
    ∃ cam sep, g = geomSpec dir cam sep := by
  rcases h1 : fs "TJII_camera.dat" with _ | f1
  · rw [dg_err_cam_none dir fs config h1] at hg
    cases hg
  · rcases f1 with cam | _
    · rcases h2 : fs (sepFile config) with _ | f2
      · rw [dg_err_sep_none dir fs config cam h1 h2] at hg
        cases hg
      · rcases f2 with sep | _
        · rw [dg_ok dir fs config cam sep h1 h2] at hg
          exact ⟨cam, sep, (Except.ok.inj hg).symm⟩
        · rw [dg_err_sep_bad dir fs config cam h1 h2] at hg
          cases hg
    · rw [dg_err_cam_bad dir fs config h1] at hg
      cases hg

/-- Coordinate dictionary of any successful build. -/
lemma r_dict_of_ok (dir : Angles → Vec3) (fs : FS) (config : String)
    (g : Geometry) (hg : define_geometry dir fs config = .ok g) :
    g.r_dict = rdictSpec dir := by
  obtain ⟨cam, sep, rfl⟩ := dg_of_ok dir fs config g hg
  exact geomSpec_r_dict dir cam sep

/-- Angle dictionary of any successful build. -/
lemma angles_of_ok (dir : Angles → Vec3) (fs : FS) (config : String)
    (g : Geometry) (hg : define_geometry dir fs config = .ok g) :
    g.angles_dict = anglesSpec := by
  obtain ⟨cam, sep, rfl⟩ := dg_of_ok dir fs config g hg
  rfl

/-- Squared distance of a translate-along-direction step. -/
lemma sqdist3_offset (w u : Vec3) (d : ℚ) :
    sqdist3 (vadd3 w (smul3 d u)) w = d * d * sqnorm3 u := by
  simp only [sqdist3, sqnorm3, vadd3, smul3]
  ring

/-- A step along a unit direction covers exactly the configured Euclidean
distance. -/
lemma distEq_offset (w u : Vec3) (d : ℚ) (hu : sqnorm3 u = 1) (hd : 0 ≤ d) :
    distEq (vadd3 w (smul3 d u)) w d := by
  unfold distEq
  rw [sqdist3_offset, hu, mul_one]
  have hc : ((d * d : ℚ) : ℝ) = (d : ℝ) ^ 2 := by
    push_cast
    ring
  rw [hc, Real.sqrt_sq (by exact_mod_cast hd)]

/-- The stored child coordinate lies at Euclidean distance d from the stored
parent coordinate. -/
def derivedAt (g : Geometry) (child parent : String) (d : ℚ) : Prop :=
  ∃ c p, g.r_dict.lookup child = some c ∧ g.r_dict.lookup parent = some p ∧
    distEq c p d

/-- The stored child coordinate is exactly the stored parent coordinate plus
d times the direction of the angle triple a. -/
def derivedFrom (dir : Angles → Vec3) (g : Geometry) (child parent : String)
    (d : ℚ) (a : Angles) : Prop :=
  ∃ p, g.r_dict.lookup parent = some p ∧
    g.r_dict.lookup child = some (vadd3 p (smul3 d (dir a)))

/-- Concrete direction map used by the witnesses: the constant unit vector
along the x axis. -/
def dirW : Angles → Vec3 := fun _ => (1, 0, 0)

/-- Concrete file system used by the witnesses: every path holds a one-row
table. -/
def fsW : FS := fun _ => some (.table [[0.0, 0.0]])

/-- Concrete file system holding only the camera file. -/
def fsCamOnly : FS := fun p =>
  if p = "TJII_camera.dat" then some (.table [[0.0, 0.0]]) else none

/-- Concrete file system agreeing with fsW on the camera and separatrix
paths of the label 100_44_64 but differing elsewhere. -/
def fsW2 : FS := fun p => if p = "other.dat" then none else some (.table [[0.0, 0.0]])

/-- Concrete file system with no files at all. -/
def fsNone : FS := fun _ => none

/-- The witness direction map produces unit vectors. -/
lemma dirW_unit : ∀ a, sqnorm3 (dirW a) = 1 := by
  intro a
  show (1 : ℚ) * 1 + 0 * 0 + 0 * 0 = 1
  norm_num

/-- The geometry built at the witness inputs. -/
def gW : Geometry :=
  match define_geometry dirW fsW "100_44_64" with
  | .ok g => g
  | .error _ => Geometry.empty

/-- At the witness inputs the builder succeeds with gW. -/
lemma gW_ok : define_geometry dirW fsW "100_44_64" = .ok gW := rfl

/-- C1: For every coordinate computed via add_coords (A2, B2, B1, A1, r0 on
the primary beamline; B3, aim, A3, slit on the secondary beamline), the
Euclidean distance between the stored child coordinate and its declared
parent coordinate equals the scalar distance passed to that add_coords call,
for any rotation convention that turns an angle triple into a unit direction
vector. Over the rationals and reals the equality is exact, which subsumes
the floating-point tolerance of the claim. -/
theorem C1_derived_distances (dir : Angles → Vec3) (fs : FS) (config : String)
    (g : Geometry) (hdir : ∀ a, sqnorm3 (dir a) = 1)
    (hg : define_geometry dir fs config = .ok g) :
    derivedAt g "A2" "port_in" 0.2305 ∧ derivedAt g "B2" "A2" 0.19 ∧
    derivedAt g "B1" "B2" 0.39 ∧ derivedAt g "A1" "B1" 0.18 ∧
    derivedAt g "r0" "A1" 0.2 ∧ derivedAt g "B3" "port_out" 0.222 ∧
    derivedAt g "aim" "B3" (0.2 - 0.075) ∧ derivedAt g "A3" "B3" 0.2 ∧
    derivedAt g "slit" "B3" 0.63 := by
  have hr := r_dict_of_ok dir fs config g hg
  unfold derivedAt
  rw [hr]
  refine ⟨⟨_, _, rfl, rfl, ?_⟩, ⟨_, _, rfl, rfl, ?_⟩, ⟨_, _, rfl, rfl, ?_⟩,
    ⟨_, _, rfl, rfl, ?_⟩, ⟨_, _, rfl, rfl, ?_⟩, ⟨_, _, rfl, rfl, ?_⟩,
    ⟨_, _, rfl, rfl, ?_⟩, ⟨_, _, rfl, rfl, ?_⟩, ⟨_, _, rfl, rfl, ?_⟩⟩
  · exact distEq_offset p_port_in (dir prim_ang) 0.2305 (hdir _) (by norm_num)
  · exact distEq_offset (p_A2 dir) (dir prim_ang) 0.19 (hdir _) (by norm_num)
  · exact distEq_offset (p_B2 dir) (dir prim_ang) 0.39 (hdir _) (by norm_num)
  · exact distEq_offset (p_B1 dir) (dir prim_ang) 0.18 (hdir _) (by norm_num)
  · exact distEq_offset (p_A1 dir) (dir prim_ang) 0.2 (hdir _) (by norm_num)
  · exact distEq_offset p_port_out (dir sec_ang) 0.222 (hdir _) (by norm_num)
  · exact distEq_offset (p_B3 dir) (dir sec_ang) (0.2 - 0.075) (hdir _) (by norm_num)
  · exact distEq_offset (p_B3 dir) (dir sec_ang) 0.2 (hdir _) (by norm_num)
  · exact distEq_offset (p_B3 dir) (dir sec_ang) 0.63 (hdir _) (by norm_num)

/-- Witness for C1 at the concrete witness inputs. -/
theorem C1_witness :
    (∀ a, sqnorm3 (dirW a) = 1) ∧ derivedAt gW "A2" "port_in" 0.2305 :=
  ⟨dirW_unit,
   (C1_derived_distances dirW fsW "100_44_64" gW dirW_unit gW_ok).1⟩

/-- C2: the coordinates are computed along the fixed parent chain
port_in to A2 to B2 to B1 to A1 to r0 on the primary beamline and
port_out to B3, then aim, A3 and slit from B3 on the secondary beamline;
in particular the r0 coordinate equals the chained computation from port_in
through the A2, B2, B1, A1, r0 offsets. -/
theorem C2_parent_chain (dir : Angles → Vec3) (fs : FS) (config : String)
    (g : Geometry) (hg : define_geometry dir fs config = .ok g) :
    g.r_dict.lookup "A2" = some (vadd3 p_port_in (smul3 0.2305 (dir prim_ang))) ∧
    g.r_dict.lookup "B2" = some (vadd3 (p_A2 dir) (smul3 0.19 (dir prim_ang))) ∧
    g.r_dict.lookup "B1" = some (vadd3 (p_B2 dir) (smul3 0.39 (dir prim_ang))) ∧
    g.r_dict.lookup "A1" = some (vadd3 (p_B1 dir) (smul3 0.18 (dir prim_ang))) ∧
    g.r_dict.lookup "r0" = some (vadd3 (p_A1 dir) (smul3 0.2 (dir prim_ang))) ∧
    g.r_dict.lookup "r0" =
      some (vadd3 (vadd3 (vadd3 (vadd3 (vadd3 p_port_in
        (smul3 0.2305 (dir prim_ang))) (smul3 0.19 (dir prim_ang)))
        (smul3 0.39 (dir prim_ang))) (smul3 0.18 (dir prim_ang)))
        (smul3 0.2 (dir prim_ang))) ∧
    g.r_dict.lookup "B3" = some (vadd3 p_port_out (smul3 0.222 (dir sec_ang))) ∧
    g.r_dict.lookup "aim" = some (vadd3 (p_B3 dir) (smul3 (0.2 - 0.075) (dir sec_ang))) ∧
    g.r_dict.lookup "A3" = some (vadd3 (p_B3 dir) (smul3 0.2 (dir sec_ang))) ∧
    g.r_dict.lookup "slit" = some (vadd3 (p_B3 dir) (smul3 0.63 (dir sec_ang))) := by
  rw [r_dict_of_ok dir fs config g hg]
  exact ⟨rfl, rfl, rfl, rfl, rfl, rfl, rfl, rfl, rfl, rfl⟩

/-- Witness for C2: the r0 coordinate of the witness build is the full chain
from port_in. -/
theorem C2_witness :
    gW.r_dict.lookup "r0" =
      some (vadd3 (vadd3 (vadd3 (vadd3 (vadd3 p_port_in
        (smul3 0.2305 (dirW prim_ang))) (smul3 0.19 (dirW prim_ang)))
        (smul3 0.39 (dirW prim_ang))) (smul3 0.18 (dirW prim_ang)))
        (smul3 0.2 (dirW prim_ang))) :=
  (C2_parent_chain dirW fsW "100_44_64" gW gW_ok).2.2.2.2.2.1

/-- C3: for a fixed configuration label and fixed contents of the two data
files the builder is deterministic; the result depends on nothing else in
the file system, so two calls with the same label and the same file contents
at the two read paths give identical Geometry records. -/
theorem C3_deterministic (dir : Angles → Vec3) (fs1 fs2 : FS) (config : String)
    (h1 : fs1 "TJII_camera.dat" = fs2 "TJII_camera.dat")
    (h2 : fs1 (sepFile config) = fs2 (sepFile config)) :
    define_geometry dir fs1 config = define_geometry dir fs2 config := by
  rw [define_geometry_eq, define_geometry_eq]
  unfold loadtxt
  rw [h1, h2]

/-- Witness for C3: two file systems that differ away from the two read
paths give the same build. -/
theorem C3_witness :
    define_geometry dirW fsW "100_44_64" = define_geometry dirW fsW2 "100_44_64" :=
  C3_deterministic dirW fsW fsW2 "100_44_64" rfl rfl

/-- C4: the builder returns a populated Geometry when both data files are
present and well formed, and it fails exactly when a data file is missing or
malformed: every error arises from one of those four file conditions, and
conversely each of the four conditions forces a failure (a missing camera
file, a malformed camera file, a missing separatrix file, a malformed
separatrix file); in particular a configuration label with no separatrix
file fails with a file-not-found condition on that path. The error is a
value of the Except monad, i.e. propagated to the caller and not
recovered. -/
theorem C4_failure_modes (dir : Angles → Vec3) (fs : FS) (config : String) :
    (∀ cam sep, fs "TJII_camera.dat" = some (.table cam) →
      fs (sepFile config) = some (.table sep) →
      define_geometry dir fs config = .ok (geomSpec dir cam sep)) ∧
    (∀ e, define_geometry dir fs config = .error e →
      fs "TJII_camera.dat" = none ∨ fs "TJII_camera.dat" = some .malformed ∨
      fs (sepFile config) = none ∨ fs (sepFile config) = some .malformed) ∧
    (fs "TJII_camera.dat" = none →
      define_geometry dir fs config = .error (.fileNotFound "TJII_camera.dat")) ∧
    (fs "TJII_camera.dat" = some .malformed →
      define_geometry dir fs config = .error (.badFile "TJII_camera.dat")) ∧
    (∀ cam, fs "TJII_camera.dat" = some (.table cam) →
      fs (sepFile config) = none →
      define_geometry dir fs config = .error (.fileNotFound (sepFile config))) ∧
    (∀ cam, fs "TJII_camera.dat" = some (.table cam) →
      fs (sepFile config) = some .malformed →
      define_geometry dir fs config = .error (.badFile (sepFile config))) := by
  refine ⟨fun cam sep h1 h2 => dg_ok dir fs config cam sep h1 h2, ?_,
    fun h1 => dg_err_cam_none dir fs config h1,
    fun h1 => dg_err_cam_bad dir fs config h1,
    fun cam h1 h2 => dg_err_sep_none dir fs config cam h1 h2,
    fun cam h1 h2 => dg_err_sep_bad dir fs config cam h1 h2⟩
  intro e he
  rcases h1 : fs "TJII_camera.dat" with _ | f1
  · exact Or.inl rfl
  · rcases f1 with cam | _
    · rcases h2 : fs (sepFile config) with _ | f2
      · exact Or.inr (Or.inr (Or.inl rfl))
      · rcases f2 with sep | _
        · rw [dg_ok dir fs config cam sep h1 h2] at he
          cases he
        · exact Or.inr (Or.inr (Or.inr rfl))
    · exact Or.inr (Or.inl rfl)

/-- Witness for C4: with the camera file present but no separatrix file for
the label, the build fails with file-not-found on the separatrix path; with
no files at all, it fails with file-not-found on the camera path. -/
theorem C4_witness :
    define_geometry dirW fsCamOnly "100_44_64" =
      .error (.fileNotFound (sepFile "100_44_64")) ∧
    define_geometry dirW fsNone "100_44_64" =
      .error (.fileNotFound "TJII_camera.dat") :=
  ⟨(C4_failure_modes dirW fsCamOnly "100_44_64").2.2.2.2.1 [[0.0, 0.0]] rfl rfl,
   (C4_failure_modes dirW fsNone "100_44_64").2.2.1 rfl⟩

/-- C5: all primary-beamline elements (r0, A1, B1, B2, A2) carry the same
stored angle triple, and all secondary-beamline elements (aim, A3, B3, an)
carry the same stored angle triple. -/
theorem C5_grouped_angles (dir : Angles → Vec3) (fs : FS) (config : String)
    (g : Geometry) (hg : define_geometry dir fs config = .ok g) :
    (g.angles_dict.lookup "r0" = some prim_ang ∧
     g.angles_dict.lookup "A1" = some prim_ang ∧
     g.angles_dict.lookup "B1" = some prim_ang ∧
     g.angles_dict.lookup "B2" = some prim_ang ∧
     g.angles_dict.lookup "A2" = some prim_ang) ∧
    (g.angles_dict.lookup "aim" = some sec_ang ∧
     g.angles_dict.lookup "A3" = some sec_ang ∧
     g.angles_dict.lookup "B3" = some sec_ang ∧
     g.angles_dict.lookup "an" = some sec_ang) := by
  rw [angles_of_ok dir fs config g hg]
  exact ⟨⟨rfl, rfl, rfl, rfl, rfl⟩, rfl, rfl, rfl, rfl⟩

/-- Witness for C5 at the concrete witness inputs. -/
theorem C5_witness :
    (gW.angles_dict.lookup "r0" = some prim_ang ∧
     gW.angles_dict.lookup "A1" = some prim_ang ∧
     gW.angles_dict.lookup "B1" = some prim_ang ∧
     gW.angles_dict.lookup "B2" = some prim_ang ∧
     gW.angles_dict.lookup "A2" = some prim_ang) ∧
    (gW.angles_dict.lookup "aim" = some sec_ang ∧
     gW.angles_dict.lookup "A3" = some sec_ang ∧
     gW.angles_dict.lookup "B3" = some sec_ang ∧
     gW.angles_dict.lookup "an" = some sec_ang) :=
  C5_grouped_angles dirW fsW "100_44_64" gW gW_ok

/-- C6: every dictionary lookup performed during construction resolves to an
already stored entry: the only failures the builder can produce are file
errors, never a KeyError from the angle or coordinate mappings (a failed
lookup would abort the builder with a keyError value, and the file reads
happen after every lookup, so no file error can mask one). -/
theorem C6_lookups_resolve (dir : Angles → Vec3) (fs : FS) (config : String)
    (e : GeomError) (he : define_geometry dir fs config = .error e) :
    e.isFileError = true := by
  rcases h1 : fs "TJII_camera.dat" with _ | f1
  · rw [dg_err_cam_none dir fs config h1] at he
    cases he
    rfl
  · rcases f1 with cam | _
    · rcases h2 : fs (sepFile config) with _ | f2
      · rw [dg_err_sep_none dir fs config cam h1 h2] at he
        cases he
        rfl
      · rcases f2 with sep | _
        · rw [dg_ok dir fs config cam sep h1 h2] at he
          cases he
        · rw [dg_err_sep_bad dir fs config cam h1 h2] at he
          cases he
          rfl
    · rw [dg_err_cam_bad dir fs config h1] at he
      cases he
      rfl

/-- Witness for C6: the error produced on an empty file system is a file
error, not a key error. -/
theorem C6_witness :
    GeomError.isFileError (.fileNotFound "TJII_camera.dat") = true :=
  C6_lookups_resolve dirW fsNone "100_44_64" (.fileNotFound "TJII_camera.dat") rfl

/-- C7: the final pass adds the constant offset vector to every stored
coordinate, and since that offset is currently zero in each component, the
pass changes no coordinate and touches no other field of the Geometry. -/
theorem C7_zero_shift :
    (∀ v : Vec3, shiftXYZ v = v) ∧
    (∀ g : Geometry, (applyShift g).r_dict = g.r_dict.map (fun p => (p.1, shiftXYZ p.2))) ∧
    (∀ g : Geometry, (applyShift g).angles_dict = g.angles_dict ∧
      (applyShift g).camera = g.camera ∧ (applyShift g).sep = g.sep ∧
      (applyShift g).R = g.R) ∧
    (∀ g : Geometry, applyShift g = g) :=
  ⟨shiftXYZ_id, fun _ => rfl, fun _ => ⟨rfl, rfl, rfl, rfl⟩, applyShift_id⟩

/-- C8: the separatrix contour is read from the file named by the label
inside the fixed configs directory, the camera contour from the fixed-name
file in the working directory, and the choice of files (and the result)
depends on nothing else in the file system. -/
theorem C8_file_selection (dir : Angles → Vec3) (fs : FS) (config : String) :
    sepFile config = "configs//" ++ config ++ ".txt" ∧
    (∀ cam sep, fs "TJII_camera.dat" = some (.table cam) →
      fs (sepFile config) = some (.table sep) →
      define_geometry dir fs config = .ok (geomSpec dir cam sep) ∧
      (geomSpec dir cam sep).camera = cam ∧ (geomSpec dir cam sep).sep = sep) ∧
    (∀ fs2 : FS, fs "TJII_camera.dat" = fs2 "TJII_camera.dat" →
      fs (sepFile config) = fs2 (sepFile config) →
      define_geometry dir fs config = define_geometry dir fs2 config) := by
  refine ⟨rfl, fun cam sep h1 h2 => ⟨dg_ok dir fs config cam sep h1 h2, rfl, rfl⟩, ?_⟩
  intro fs2 h1 h2
  rw [define_geometry_eq, define_geometry_eq]
  unfold loadtxt
  rw [h1, h2]

/-- Witness for C8: a successful build whose camera and sep fields are the
loaded tables. -/
theorem C8_witness :
    define_geometry dirW fsW "100_36_61" = .ok (geomSpec dirW [[0.0, 0.0]] [[0.0, 0.0]]) ∧
    (geomSpec dirW [[0.0, 0.0]] [[0.0, 0.0]]).camera = [[0.0, 0.0]] ∧
    (geomSpec dirW [[0.0, 0.0]] [[0.0, 0.0]]).sep = [[0.0, 0.0]] :=
  (C8_file_selection dirW fsW "100_36_61").2.1 [[0.0, 0.0]] [[0.0, 0.0]] rfl rfl

/-- C9: the coordinate mapping holds exactly the twelve named entries; the
two port coordinates are set directly to constants, the entry named an is a
direct copy of the slit entry (it is the only other directly assigned
coordinate), and every one of the nine remaining coordinates is derived from
exactly one named parent plus a scalar distance and an angle triple. -/
theorem C9_dependency_shape (dir : Angles → Vec3) (fs : FS) (config : String)
    (g : Geometry) (hg : define_geometry dir fs config = .ok g) :
    g.r_dict.map Prod.fst =
      ["port_in", "A2", "B2", "B1", "A1", "r0",
       "port_out", "B3", "aim", "A3", "slit", "an"] ∧
    g.r_dict.lookup "port_in" = some p_port_in ∧
    g.r_dict.lookup "port_out" = some p_port_out ∧
    g.r_dict.lookup "an" = g.r_dict.lookup "slit" ∧
    derivedFrom dir g "A2" "port_in" 0.2305 prim_ang ∧
    derivedFrom dir g "B2" "A2" 0.19 prim_ang ∧
    derivedFrom dir g "B1" "B2" 0.39 prim_ang ∧
    derivedFrom dir g "A1" "B1" 0.18 prim_ang ∧
    derivedFrom dir g "r0" "A1" 0.2 prim_ang ∧
    derivedFrom dir g "B3" "port_out" 0.222 sec_ang ∧
    derivedFrom dir g "aim" "B3" (0.2 - 0.075) sec_ang ∧
    derivedFrom dir g "A3" "B3" 0.2 sec_ang ∧
    derivedFrom dir g "slit" "B3" 0.63 sec_ang := by
  have hr := r_dict_of_ok dir fs config g hg
  unfold derivedFrom
  rw [hr]
  exact ⟨rfl, rfl, rfl, rfl, ⟨_, rfl, rfl⟩, ⟨_, rfl, rfl⟩, ⟨_, rfl, rfl⟩,
    ⟨_, rfl, rfl⟩, ⟨_, rfl, rfl⟩, ⟨_, rfl, rfl⟩, ⟨_, rfl, rfl⟩,
    ⟨_, rfl, rfl⟩, ⟨_, rfl, rfl⟩⟩

/-- Witness for C9: the key list of the witness build. -/
theorem C9_witness :
    gW.r_dict.map Prod.fst =
      ["port_in", "A2", "B2", "B1", "A1", "r0",
       "port_out", "B3", "aim", "A3", "slit", "an"] :=
  (C9_dependency_shape dirW fsW "100_44_64" gW gW_ok).1

/-- C10: the coordinate stored under the name an equals the coordinate
stored under the name slit, and the two are still equal in the returned
Geometry, i.e. after the final offset pass. -/
theorem C10_an_copies_slit (dir : Angles → Vec3) (fs : FS) (config : String)
    (g : Geometry) (hg : define_geometry dir fs config = .ok g) :
    g.r_dict.lookup "an" = some (p_slit dir) ∧
    g.r_dict.lookup "slit" = some (p_slit dir) ∧
    g.r_dict.lookup "an" = g.r_dict.lookup "slit" := by
  rw [r_dict_of_ok dir fs config g hg]
  exact ⟨rfl, rfl, rfl⟩

/-- Witness for C10: the analyzer and slit entries of the witness build
coincide. -/
theorem C10_witness :
    gW.r_dict.lookup "an" = gW.r_dict.lookup "slit" :=
  (C10_an_copies_slit dirW fsW "100_44_64" gW gW_ok).2.2

end HIBP
